import Mathlib

/-!
# Verification of the pdf2md resource-adaptive scheduling layer

Shallow embedding of the scheduling core of the `pdf2md` repository:
the task queue (`src/batch/task_queue.py`), the batch processor
(`src/batch/batch_processor.py`), the memory-pressure monitor
(`src/core/cpu_optimizer.py` `AdvancedMemoryManager` and
`src/core/memory_manager.py` `MemoryManager`), and the hardware-derived
resource planning functions (`src/utils/system_detector.py`
`SystemCapabilities` and `src/core/cpu_optimizer.py` `AMDCPUOptimizer`).

Python floats are modelled as rationals (the comparisons and the
multiplications by 1.5 / 0.75 / 0.5 used here are exact in IEEE doubles;
the single `* 1.2` step is modelled as the exact rational 6/5).
Python `int()` truncation of a nonnegative value is modelled as `Rat.floor`
or natural division.  `datetime.now()` timestamps are threaded in as
explicit `Nat` clock parameters.
-/

namespace Pdf2Md

/-! ## Memory pressure (`AdvancedMemoryManager.get_memory_pressure`,
`cpu_optimizer.py` lines 279-296).

The live psutil readings (`virtual_memory().percent`, available GiB) are the
two parameters; the function itself is the pure classification. -/

/-- Embeds `AdvancedMemoryManager.get_memory_pressure` (cpu_optimizer.py):
`percent` is `psutil.virtual_memory().percent`, `available_gb` is available
memory in GiB. -/
def advGetMemoryPressure (percent available_gb : ℚ) : String :=
  if percent > 90 ∨ available_gb < 2 then "critical"
  else if percent > 75 ∨ available_gb < 4 then "high"
  else if percent > 60 then "medium"
  else "low"

/-- Embeds `MemoryManager.get_memory_pressure` (memory_manager.py lines
129-145): classification from `stats.percent` only. -/
def mmGetMemoryPressure (percent : ℚ) : String :=
  if percent < 50 then "low"
  else if percent < 70 then "medium"
  else if percent < 85 then "high"
  else "critical"

/-- Modelled from the spec's words (§4.4 `current_pressure`) for comparison
with the code: critical if used% > 90 or available < 2 GiB; high if used% > 75
or available < 4 GiB; medium if used% > 60; else low. -/
def specPressure (percent available_gb : ℚ) : String :=
  if percent > 90 ∨ available_gb < 2 then "critical"
  else if percent > 75 ∨ available_gb < 4 then "high"
  else if percent > 60 then "medium"
  else "low"

/-- Embeds `AdvancedMemoryManager.recommend_batch_size` (cpu_optimizer.py
lines 311-339).  The live memory state enters through the internal
`get_memory_pressure` call; Python `//` on ints is floor division
(`Int.fdiv`). -/
def recommendBatchSize (percent available_gb : ℚ) (current_batch_size : ℤ) : ℤ :=
  let pressure := advGetMemoryPressure percent available_gb
  if pressure = "critical" then
    max 1 (Int.fdiv current_batch_size 4)
  else if pressure = "high" then
    max 2 (Int.fdiv current_batch_size 2)
  else
    current_batch_size

/-! ## AMD CPU optimizer (`AMDCPUOptimizer`, cpu_optimizer.py) -/

/-- Embeds the `SystemSpec` dataclass (cpu_optimizer.py lines 17-23). -/
structure SystemSpec where
  physical_cores : ℕ
  logical_cores : ℕ
  total_memory_gb : ℚ
  available_memory_gb : ℚ

/-- Embeds `AMDCPUOptimizer.calculate_optimal_workers` (cpu_optimizer.py
lines 85-102): `max(min(physical_cores, int(available_memory_gb / 2)), 4)`. -/
def calculateOptimalWorkers (system : SystemSpec) : ℤ :=
  let cpu_based : ℤ := system.physical_cores
  let mem_based : ℤ := Int.floor (system.available_memory_gb / 2)
  let optimal := min cpu_based mem_based
  max optimal 4

/-! ## System detector (`SystemCapabilities`, system_detector.py) -/

/-- Embeds the `GPUInfo` dataclass fields used by the planning functions
(system_detector.py lines 28-37). -/
structure GPUInfo where
  vendor : String
  memory_mb : Option ℚ
  supports_cuda : Bool
  supports_rocm : Bool
  supports_mps : Bool

/-- Python truthiness test `if self.gpu.memory_mb and self.gpu.memory_mb >= bound`:
`None` and `0` are falsy. -/
def memAtLeast (memory_mb : Option ℚ) (bound : ℚ) : Bool :=
  match memory_mb with
  | none => false
  | some m => decide (m ≠ 0) && decide (bound ≤ m)

/-- Embeds `SystemCapabilities.get_optimal_workers` (system_detector.py lines
57-84).  `total_mb` is `self.memory.total_mb`, `gpu_vendor` is
`self.gpu.vendor`.  Each `int(workers * f)` step is modelled as natural
(truncating) division after exact rational scaling; `1.2` is modelled as 6/5. -/
def getOptimalWorkers (cores_physical : ℕ) (total_mb : ℚ) (gpu_vendor : String) : ℕ :=
  let workers := cores_physical
  let total_mem_gb := total_mb / 1024
  let workers :=
    if total_mem_gb ≥ 64 then workers * 3 / 2
    else if total_mem_gb ≥ 32 then workers
    else if total_mem_gb ≥ 16 then workers * 3 / 4
    else workers / 2
  let workers :=
    if gpu_vendor ≠ "none" ∧ total_mem_gb ≥ 32 then workers
    else if gpu_vendor ≠ "none" then workers * 6 / 5
    else workers
  max 1 (min workers 16)

/-- Embeds `SystemCapabilities.get_optimal_batch_size` (system_detector.py
lines 86-114). -/
def getOptimalBatchSize (gpu : GPUInfo) (cores_physical : ℕ) : ℕ :=
  if gpu.supports_cuda || gpu.supports_rocm then
    if memAtLeast gpu.memory_mb 64000 then 128
    else if memAtLeast gpu.memory_mb 16000 then 64
    else if memAtLeast gpu.memory_mb 8000 then 32
    else 16
  else if gpu.vendor = "apple" && gpu.supports_mps then
    if memAtLeast gpu.memory_mb 16000 then 32 else 16
  else
    if cores_physical ≥ 16 then 16
    else if cores_physical ≥ 8 then 8
    else 4

/-! ## Task queue (`src/batch/task_queue.py`) -/

/-- Embeds the `TaskStatus` enum (task_queue.py lines 17-23). -/
inductive TaskStatus where
  | pending
  | running
  | completed
  | failed
  | skipped
deriving DecidableEq

/-- Embeds the `ConversionTask` dataclass (task_queue.py lines 26-49).
Paths are modelled as strings, timestamps as `Nat` clock values. -/
structure ConversionTask where
  source_path : String
  output_dir : Option String := none
  priority : ℤ := 0
  status : TaskStatus := TaskStatus.pending
  error_message : Option String := none
  created_at : ℕ
  started_at : Option ℕ := none
  completed_at : Option ℕ := none
deriving DecidableEq

/-- Models `Path.name`: the final path component (POSIX separator). -/
def pathName (p : String) : String :=
  ((p.splitOn "/").getLast?).getD p

namespace ConversionTask

/-- Embeds the `source_name` property (task_queue.py lines 51-54). -/
def source_name (t : ConversionTask) : String :=
  pathName t.source_path

/-- Embeds `mark_started` (task_queue.py lines 63-66); `now` stands for
`datetime.now()`. -/
def mark_started (t : ConversionTask) (now : ℕ) : ConversionTask :=
  { t with status := TaskStatus.running, started_at := some now }

/-- Embeds `mark_completed` (task_queue.py lines 68-71). -/
def mark_completed (t : ConversionTask) (now : ℕ) : ConversionTask :=
  { t with status := TaskStatus.completed, completed_at := some now }

/-- Embeds `mark_failed` (task_queue.py lines 73-77). -/
def mark_failed (t : ConversionTask) (error : String) (now : ℕ) : ConversionTask :=
  { t with status := TaskStatus.failed, error_message := some error,
           completed_at := some now }

/-- Embeds `mark_skipped` (task_queue.py lines 79-83). -/
def mark_skipped (t : ConversionTask) (reason : String) (now : ℕ) : ConversionTask :=
  { t with status := TaskStatus.skipped, error_message := some reason,
           completed_at := some now }

end ConversionTask

/-- Embeds the `TaskQueue` class state (task_queue.py lines 97-100):
`_tasks` and the (never-incremented) `_next_id` counter. -/
structure TaskQueue where
  tasks : List ConversionTask := []
  next_id : ℕ := 0
deriving DecidableEq

/-- The Python sort key `(-t.priority, t.created_at)` compared
lexicographically: `a` sorts no later than `b` iff `a` has strictly larger
priority, or equal priority and no-later creation time. -/
def pendingKeyLE (a b : ConversionTask) : Bool :=
  decide (b.priority < a.priority) ||
    (decide (a.priority = b.priority) && decide (a.created_at ≤ b.created_at))

namespace TaskQueue

/-- The freshly initialized queue (task_queue.py `__init__`). -/
def empty : TaskQueue := {}

/-- Embeds `TaskQueue.add` (task_queue.py lines 102-126); `now` stands for
the `datetime.now()` default of `created_at`. -/
def add (q : TaskQueue) (source_path : String) (output_dir : Option String)
    (priority : ℤ) (now : ℕ) : TaskQueue × ConversionTask :=
  let task : ConversionTask :=
    { source_path := source_path, output_dir := output_dir,
      priority := priority, created_at := now }
  ({ q with tasks := q.tasks ++ [task] }, task)

/-- Embeds `TaskQueue.get_pending` (task_queue.py lines 211-215): filter the
pending tasks, then stable-sort by `(-priority, created_at)`.  Python's
`list.sort` is a stable sort; it is modelled by `List.mergeSort`. -/
def get_pending (q : TaskQueue) : List ConversionTask :=
  List.mergeSort (q.tasks.filter fun t => decide (t.status = TaskStatus.pending))
    pendingKeyLE

/-- Embeds `TaskQueue.get_by_status` (task_queue.py lines 217-219). -/
def get_by_status (q : TaskQueue) (status : TaskStatus) : List ConversionTask :=
  q.tasks.filter fun t => decide (t.status = status)

/-- Embeds `TaskQueue.get_completed` (task_queue.py lines 221-223). -/
def get_completed (q : TaskQueue) : List ConversionTask :=
  q.get_by_status TaskStatus.completed

/-- Embeds `TaskQueue.get_failed` (task_queue.py lines 225-227). -/
def get_failed (q : TaskQueue) : List ConversionTask :=
  q.get_by_status TaskStatus.failed

/-- Embeds the `pending_count` property (task_queue.py lines 237-240). -/
def pending_count (q : TaskQueue) : ℕ :=
  q.get_pending.length

/-- Embeds the `completed_count` property (task_queue.py lines 242-245). -/
def completed_count (q : TaskQueue) : ℕ :=
  q.get_completed.length

/-- Embeds the `failed_count` property (task_queue.py lines 247-250). -/
def failed_count (q : TaskQueue) : ℕ :=
  q.get_failed.length

end TaskQueue

/-- Abstract file-system interface used by `add_from_directory`:
`is_dir` models `Path.is_dir()`, `glob`/`rglob` model `Path.glob`/`Path.rglob`
(arguments: directory, pattern). -/
structure FileSystem where
  is_dir : String → Bool
  glob : String → String → List String
  rglob : String → String → List String

/-- Embeds `TaskQueue.add_from_directory` (task_queue.py lines 151-187) in
state-passing style: the `raise ValueError` before any mutation becomes an
`Except.error` paired with the untouched queue.  Successive `add` calls get
increasing creation timestamps starting at `now`. -/
def TaskQueue.add_from_directory (q : TaskQueue) (fs : FileSystem)
    (directory : String) (pattern : String) (recursive : Bool)
    (output_dir : Option String) (priority : ℤ) (now : ℕ) :
    TaskQueue × Except String (List ConversionTask) :=
  if ¬ fs.is_dir directory then
    (q, Except.error ("Not a directory: " ++ directory))
  else
    let pdf_files := if recursive then fs.rglob directory pattern
                     else fs.glob directory pattern
    let out := pdf_files.foldl
      (fun acc file =>
        let added := acc.1.add file output_dir priority (now + acc.2.length)
        (added.1, acc.2 ++ [added.2]))
      (q, ([] : List ConversionTask))
    (out.1, Except.ok out.2)

/-! ## Conversion results and the batch processor
(`src/core/converter.py`, `src/batch/batch_processor.py`) -/

/-- Embeds the `ConversionResult` dataclass (converter.py lines 54-64). -/
structure ConversionResult where
  success : Bool
  source_path : String
  output_path : String
  pages_converted : ℕ
  total_pages : ℕ
  images_extracted : ℕ
  duration_seconds : ℚ
  error_message : Option String := none
  warnings : List String := []
deriving DecidableEq

/-- The external collaborator's `convert(source_path, output_dir)` call:
either returns a `ConversionResult` or raises (modelled as `Except.error`
carrying `str(e)`). -/
def Converter : Type :=
  String → Option String → Except String ConversionResult

/-- Embeds the `BatchProcessor` mutable state (batch_processor.py lines
31-46): the worker count and the `_results` accumulator. -/
structure BatchProcessor where
  max_workers : ℕ := 4
  results : List ConversionResult := []
deriving DecidableEq

/-- Python `result.error_message or "Unknown error"`: `None` and the empty
string are falsy. -/
def orUnknown (msg : Option String) : String :=
  match msg with
  | none => "Unknown error"
  | some m => if m = "" then "Unknown error" else m

/-- Python `f"...FAILED: {result.error_message}"` formatting of an
`Optional[str]`: `None` prints as "None". -/
def pyShowOpt (msg : Option String) : String :=
  match msg with
  | none => "None"
  | some m => m

/-- The failure `ConversionResult` built in the exception branch of
`BatchProcessor._process_task` (batch_processor.py lines 147-156). -/
def failureResult (task : ConversionTask) (error_msg : String) : ConversionResult :=
  { success := false, source_path := task.source_path, output_path := "",
    pages_converted := 0, total_pages := 0, images_extracted := 0,
    duration_seconds := 0, error_message := some error_msg }

/-- Embeds `BatchProcessor._process_task` (batch_processor.py lines 108-158):
mark started, call the collaborator, mark completed/failed from the result's
success flag, and turn any raised exception into a failure result.  `start`
and `finish` stand for the two `datetime.now()` stamps. -/
def processTask (convert : Converter) (start finish : ℕ)
    (task : ConversionTask) : ConversionTask × ConversionResult :=
  let task := task.mark_started start
  match convert task.source_path task.output_dir with
  | Except.ok result =>
      if result.success then
        (task.mark_completed finish, result)
      else
        (task.mark_failed (orUnknown result.error_message) finish, result)
  | Except.error e =>
      (task.mark_failed e finish, failureResult task e)

/-- The progress-callback message built in `BatchProcessor.process`
(batch_processor.py lines 91-95). -/
def progressMessage (task : ConversionTask) (result : ConversionResult) : String :=
  "Converted " ++ task.source_name ++
    (if result.success then
       " (" ++ toString result.pages_converted ++ " pages)"
     else
       " - FAILED: " ++ pyShowOpt result.error_message)

/-- The completion loop of `BatchProcessor.process` (batch_processor.py lines
74-104), one completion order (dispatch order) standing in for the
nondeterministic `as_completed` order.  Returns, in order: the accumulated
results, the updated tasks, the collaborator invocations (arguments of each
`convert` call), and the progress-callback invocations
`(completed, total, message)` (empty when no callback was supplied). -/
def runPending (convert : Converter) (start finish : ℕ) (total_tasks : ℕ)
    (hasCallback : Bool) :
    List ConversionTask → ℕ →
      List ConversionResult × List ConversionTask ×
        List (String × Option String) × List (ℕ × ℕ × String)
  | [], _ => ([], [], [], [])
  | task :: rest, completed =>
      let step := processTask convert start finish task
      let completedNew := completed + 1
      let callsHere : List (ℕ × ℕ × String) :=
        if hasCallback then [(completedNew, total_tasks, progressMessage task step.2)]
        else []
      let tail := runPending convert start finish total_tasks hasCallback rest completedNew
      (step.2 :: tail.1, step.1 :: tail.2.1,
       (task.source_path, task.output_dir) :: tail.2.2.1,
       callsHere ++ tail.2.2.2)

/-- Everything observable about one `BatchProcessor.process` run: the
processor state afterwards, the returned list, the updated tasks, the
collaborator invocations, and the progress-callback invocations. -/
structure ProcessOutput where
  processor : BatchProcessor
  returned : List ConversionResult
  tasks : List ConversionTask
  conv_calls : List (String × Option String)
  progress_calls : List (ℕ × ℕ × String)
deriving DecidableEq

/-- Embeds `BatchProcessor.process` (batch_processor.py lines 48-106): if no
task is pending, return `[]` at once, leaving `_results` untouched;
otherwise clear `_results` and process every pending task. -/
def process (convert : Converter) (start finish : ℕ)
    (processor : BatchProcessor) (queue : TaskQueue) (hasCallback : Bool) :
    ProcessOutput :=
  let total_tasks := queue.pending_count
  if total_tasks = 0 then
    { processor := processor, returned := [], tasks := [],
      conv_calls := [], progress_calls := [] }
  else
    let run := runPending convert start finish total_tasks hasCallback
      queue.get_pending 0
    { processor := { processor with results := run.1 }, returned := run.1,
      tasks := run.2.1, conv_calls := run.2.2.1, progress_calls := run.2.2.2 }

/-- Embeds `BatchProcessor.get_results` (batch_processor.py lines 160-162). -/
def BatchProcessor.get_results (p : BatchProcessor) : List ConversionResult :=
  p.results

/-- The summary dictionary of `BatchProcessor.get_summary`. -/
structure BatchSummary where
  total : ℕ
  successful : ℕ
  failed : ℕ
  total_pages : ℕ
  total_images : ℕ
  total_duration : ℚ
deriving DecidableEq

/-- Embeds `BatchProcessor.get_summary` (batch_processor.py lines 164-191). -/
def BatchProcessor.get_summary (p : BatchProcessor) : BatchSummary :=
  if p.results = [] then
    { total := 0, successful := 0, failed := 0, total_pages := 0,
      total_images := 0, total_duration := 0 }
  else
    let successful := p.results.filter fun r => r.success
    let failedResults := p.results.filter fun r => ¬ r.success
    { total := p.results.length, successful := successful.length,
      failed := failedResults.length,
      total_pages := (successful.map fun r => r.pages_converted).sum,
      total_images := (successful.map fun r => r.images_extracted).sum,
      total_duration := (p.results.map fun r => r.duration_seconds).sum }

/-! ## Scenario drivers and concrete fixtures

Client-side drivers (built only from the embedded operations) for the
add-N-then-mark-K scenario, plus concrete instances used to evaluate the
theorems on closed inputs. -/

/-- Adds one task per priority in order, with creation timestamps
`now, now+1, ...` (each `TaskQueue.add` call happens strictly later). -/
def addAll : TaskQueue → List ℤ → ℕ → TaskQueue
  | q, [], _ => q
  | q, p :: ps, now => addAll (q.add "doc.pdf" none p now).1 ps (now + 1)

/-- Applies `ConversionTask.mark_completed` to the `i`-th task of a list,
modelling `task.mark_completed()` called on the `i`-th task object. -/
def markTasksAt : List ConversionTask → ℕ → ℕ → List ConversionTask
  | [], _, _ => []
  | t :: ts, 0, later => t.mark_completed later :: ts
  | t :: ts, i + 1, later => t :: markTasksAt ts i later

/-- Marks the `i`-th task of the queue completed at time `later`. -/
def TaskQueue.markCompletedAt (q : TaskQueue) (i later : ℕ) : TaskQueue :=
  { q with tasks := markTasksAt q.tasks i later }

/-- Marks the tasks at each index of `idxs` completed, in order. -/
def markCompletedMany (q : TaskQueue) (idxs : List ℕ) (later : ℕ) : TaskQueue :=
  idxs.foldl (fun acc i => acc.markCompletedAt i later) q

/-- A file system on which every path fails `is_dir`. -/
def fsNone : FileSystem :=
  { is_dir := fun _ => false, glob := fun _ _ => [], rglob := fun _ _ => [] }

/-- A task already in the terminal `completed` state. -/
def completedTaskFx : ConversionTask :=
  { source_path := "a.pdf", priority := 0, status := TaskStatus.completed,
    created_at := 0, started_at := some 1, completed_at := some 5 }

/-- A successful collaborator result for `good.pdf`. -/
def sampleOkResult : ConversionResult :=
  { success := true, source_path := "good.pdf", output_path := "good.md",
    pages_converted := 3, total_pages := 3, images_extracted := 1,
    duration_seconds := 2 }

/-- A stub collaborator: raises for `bad.pdf`, succeeds for everything else. -/
def convStub : Converter :=
  fun p _ => if p = "bad.pdf" then Except.error "boom" else Except.ok sampleOkResult

/-- A queue holding pending `good.pdf` (created at 0) and `bad.pdf`
(created at 1), both of priority 0. -/
def qTwo : TaskQueue :=
  ((TaskQueue.empty.add "good.pdf" none 0 0).1.add "bad.pdf" none 0 1).1

/-- A queue holding the single pending task `bad.pdf`. -/
def qOne : TaskQueue :=
  (TaskQueue.empty.add "bad.pdf" none 0 0).1

/-- A processor still holding one result from a previous batch. -/
def procPrev : BatchProcessor :=
  { max_workers := 4, results := [sampleOkResult] }

/-- A nonempty queue with no pending task (its only task is completed). -/
def qDone : TaskQueue :=
  ((TaskQueue.empty.add "done.pdf" none 0 0).1).markCompletedAt 0 5

/-! # Theorems -/

/-- Unfolding lemma for `recommendBatchSize`: the branch taken is determined
by the pressure classification. -/
theorem recommendBatchSize_eq (percent available_gb : ℚ) (c : ℤ) :
    recommendBatchSize percent available_gb c =
      if advGetMemoryPressure percent available_gb = "critical" then
        max 1 (Int.fdiv c 4)
      else if advGetMemoryPressure percent available_gb = "high" then
        max 2 (Int.fdiv c 2)
      else c := rfl

/-- C3 counterexample: at 55% used memory with 100 GiB available, the
`MemoryManager` classifier (memory_manager.py) answers "medium" although the
claimed thresholds (none of used% > 90/75/60, available ≥ 4 GiB) classify the
state as "low", so the claim is false for that classifier. -/
theorem c3_counterexample :
    mmGetMemoryPressure 55 = "medium" ∧ specPressure 55 100 = "low" ∧
    mmGetMemoryPressure 55 ≠ specPressure 55 100 := by
  refine ⟨by decide, by decide, by decide⟩

/-- C3 (amended): the claimed classification (critical if used% > 90 or
available < 2 GiB; high if used% > 75 or available < 4 GiB; medium if
used% > 60; else low) is exactly `AdvancedMemoryManager.get_memory_pressure`
(cpu_optimizer.py); the second classifier, `MemoryManager.get_memory_pressure`
(memory_manager.py), instead uses used%-only bands: low below 50, medium
below 70, high below 85, else critical. -/
theorem c3_pressure_classification (percent available_gb : ℚ) :
    advGetMemoryPressure percent available_gb = specPressure percent available_gb ∧
    mmGetMemoryPressure percent =
      (if percent < 50 then "low"
       else if percent < 70 then "medium"
       else if percent < 85 then "high"
       else "critical") :=
  ⟨rfl, rfl⟩

/-- C5: `AdvancedMemoryManager.recommend_batch_size` returns
`max(current // 4, 1)` under critical pressure, `max(current // 2, 2)` under
high pressure, and the input unchanged under medium or low pressure
(`//` is Python floor division, `Int.fdiv`). -/
theorem c5_recommend_scale (percent available_gb : ℚ) (c : ℤ) :
    (advGetMemoryPressure percent available_gb = "critical" →
      recommendBatchSize percent available_gb c = max (Int.fdiv c 4) 1) ∧
    (advGetMemoryPressure percent available_gb = "high" →
      recommendBatchSize percent available_gb c = max (Int.fdiv c 2) 2) ∧
    (advGetMemoryPressure percent available_gb = "medium" ∨
        advGetMemoryPressure percent available_gb = "low" →
      recommendBatchSize percent available_gb c = c) := by
  refine ⟨fun h => ?_, fun h => ?_, fun h => ?_⟩
  · simp [recommendBatchSize, h, max_comm]
  · simp [recommendBatchSize, h, max_comm]
  · rcases h with h | h <;> simp [recommendBatchSize, h]

/-- C5 witness: concrete states realizing each pressure level, at current
batch size 9. -/
theorem c5_recommend_scale_witness :
    recommendBatchSize 95 100 9 = max (Int.fdiv 9 4) 1 ∧
    recommendBatchSize 80 100 9 = max (Int.fdiv 9 2) 2 ∧
    recommendBatchSize 65 100 9 = 9 :=
  ⟨(c5_recommend_scale 95 100 9).1 (by norm_num [advGetMemoryPressure]),
   (c5_recommend_scale 80 100 9).2.1 (by norm_num [advGetMemoryPressure]),
   (c5_recommend_scale 65 100 9).2.2 (Or.inl (by norm_num [advGetMemoryPressure]))⟩

/-- C6 counterexample: at fixed batch size 1 the recommendation is not
non-increasing as pressure escalates: a low-pressure state (50% used, 100 GiB
available) keeps 1, but a high-pressure state (80% used) recommends
`max(1 // 2, 2) = 2 > 1`. -/
theorem c6_counterexample :
    advGetMemoryPressure 50 100 = "low" ∧
    advGetMemoryPressure 80 100 = "high" ∧
    recommendBatchSize 50 100 1 = 1 ∧
    recommendBatchSize 80 100 1 = 2 ∧
    ¬ recommendBatchSize 80 100 1 ≤ recommendBatchSize 50 100 1 := by
  refine ⟨by decide, by decide, by decide, by decide, by decide⟩

/-- C6 (amended): for every fixed input batch size c ≥ 2 the recommended
batch size is non-increasing as pressure escalates low → medium → high →
critical; at c = 1 the high-pressure recommendation is 2, which exceeds the
unchanged low/medium value 1 (critical still recommends 1). -/
theorem c6_scale_monotone (c : ℤ) (hc : 2 ≤ c)
    (pl al pm am ph ah pc ac : ℚ)
    (hl : advGetMemoryPressure pl al = "low")
    (hm : advGetMemoryPressure pm am = "medium")
    (hh : advGetMemoryPressure ph ah = "high")
    (hk : advGetMemoryPressure pc ac = "critical") :
    recommendBatchSize pm am c ≤ recommendBatchSize pl al c ∧
    recommendBatchSize ph ah c ≤ recommendBatchSize pm am c ∧
    recommendBatchSize pc ac c ≤ recommendBatchSize ph ah c := by
  have e2 : Int.fdiv c 2 = c / 2 := Int.fdiv_eq_ediv c (by omega)
  have e4 : Int.fdiv c 4 = c / 4 := Int.fdiv_eq_ediv c (by omega)
  have Rl : recommendBatchSize pl al c = c := by
    rw [recommendBatchSize_eq, hl,
      if_neg (show ¬ ("low" = "critical") by decide),
      if_neg (show ¬ ("low" = "high") by decide)]
  have Rm : recommendBatchSize pm am c = c := by
    rw [recommendBatchSize_eq, hm,
      if_neg (show ¬ ("medium" = "critical") by decide),
      if_neg (show ¬ ("medium" = "high") by decide)]
  have Rh : recommendBatchSize ph ah c = max 2 (c / 2) := by
    rw [recommendBatchSize_eq, hh,
      if_neg (show ¬ ("high" = "critical") by decide), if_pos rfl, e2]
  have Rk : recommendBatchSize pc ac c = max 1 (c / 4) := by
    rw [recommendBatchSize_eq, hk, if_pos rfl, e4]
  rw [Rl, Rm, Rh, Rk]
  refine ⟨le_refl c, max_le (by omega) (by omega), max_le ?_ ?_⟩
  · exact le_trans (by norm_num) (le_max_left 2 (c / 2))
  · exact le_trans (by omega) (le_max_right 2 (c / 2))

/-- C6 witness: the four concrete pressure states at batch size 4. -/
theorem c6_scale_monotone_witness :
    recommendBatchSize 65 100 4 ≤ recommendBatchSize 50 100 4 ∧
    recommendBatchSize 80 100 4 ≤ recommendBatchSize 65 100 4 ∧
    recommendBatchSize 95 100 4 ≤ recommendBatchSize 80 100 4 :=
  c6_scale_monotone 4 (by norm_num) 50 100 65 100 80 100 95 100
    (by norm_num [advGetMemoryPressure]) (by norm_num [advGetMemoryPressure])
    (by norm_num [advGetMemoryPressure]) (by norm_num [advGetMemoryPressure])

/-- C7: evaluation of `SystemCapabilities.get_optimal_workers` at 10 physical
cores: a profile in the inadequate memory tier (17 GiB total) is raised by
the accelerator from 7 to 8 workers (×1.2 branch), while a profile in the
adequate tier (33 GiB total) receives no raise (×1.0 branch, 10 both ways) —
the code applies the higher GPU multiplier exactly when the memory tier is
NOT adequate, contradicting the claim and the code's own branch comments. -/
theorem c7_gpu_tier_inversion :
    getOptimalWorkers 10 (17 * 1024) "none" = 7 ∧
    getOptimalWorkers 10 (17 * 1024) "amd" = 8 ∧
    getOptimalWorkers 10 (33 * 1024) "none" = 10 ∧
    getOptimalWorkers 10 (33 * 1024) "amd" = 10 := by
  refine ⟨?_, ?_, ?_, ?_⟩ <;> (norm_num [getOptimalWorkers]; try decide)

/-- C4 counterexample: `AMDCPUOptimizer.calculate_optimal_workers` on a
profile with 32 physical cores and 100 GiB available memory returns
`max(min(32, 50), 4) = 32`, outside the claimed interval [1, 16]. -/
theorem c4_counterexample :
    calculateOptimalWorkers
        { physical_cores := 32, logical_cores := 64,
          total_memory_gb := 128, available_memory_gb := 100 } = 32 ∧
    ¬ calculateOptimalWorkers
        { physical_cores := 32, logical_cores := 64,
          total_memory_gb := 128, available_memory_gb := 100 } ≤ 16 := by
  constructor <;> (norm_num [calculateOptimalWorkers]; try decide)

/-- C4 (amended): for every hardware profile with physical cores ≥ 1 and
total memory ≥ 1, `SystemCapabilities.get_optimal_workers` lies in [1, 16]
and `SystemCapabilities.get_optimal_batch_size` is at least 4;
`AMDCPUOptimizer.calculate_optimal_workers` is only bounded below by 4 and
has no 16-worker cap. -/
theorem c4_planner_bounds (cores : ℕ) (total_mb : ℚ) (vendor : String)
    (gpu : GPUInfo) (sys : SystemSpec)
    (hcores : 1 ≤ cores) (hmem : 1 ≤ total_mb) :
    1 ≤ getOptimalWorkers cores total_mb vendor ∧
    getOptimalWorkers cores total_mb vendor ≤ 16 ∧
    4 ≤ getOptimalBatchSize gpu cores ∧
    4 ≤ calculateOptimalWorkers sys := by
  refine ⟨?_, ?_, ?_, ?_⟩
  · simp only [getOptimalWorkers]
    exact le_max_left _ _
  · simp only [getOptimalWorkers]
    exact max_le (by norm_num) (min_le_right _ _)
  · simp only [getOptimalBatchSize]
    split_ifs <;> norm_num
  · simp only [calculateOptimalWorkers]
    exact le_max_right _ _

/-- C4 witness: a reference 8-core, 32 GiB profile without accelerator, and
a 16-core AMD system spec. -/
theorem c4_planner_bounds_witness :
    1 ≤ getOptimalWorkers 8 32768 "none" ∧
    getOptimalWorkers 8 32768 "none" ≤ 16 ∧
    4 ≤ getOptimalBatchSize
        { vendor := "none", memory_mb := none, supports_cuda := false,
          supports_rocm := false, supports_mps := false } 8 ∧
    4 ≤ calculateOptimalWorkers
        { physical_cores := 16, logical_cores := 32,
          total_memory_gb := 96, available_memory_gb := 50 } :=
  c4_planner_bounds 8 32768 "none"
    { vendor := "none", memory_mb := none, supports_cuda := false,
      supports_rocm := false, supports_mps := false }
    { physical_cores := 16, logical_cores := 32,
      total_memory_gb := 96, available_memory_gb := 50 }
    (by norm_num) (by norm_num)

/-- C8: `add_from_directory` on a path that is not a directory fails with
the not-a-directory error and leaves the queue exactly as it was; no task is
added. -/
theorem c8_not_a_directory (fs : FileSystem) (q : TaskQueue)
    (directory pattern : String) (recursive : Bool)
    (output_dir : Option String) (priority : ℤ) (now : ℕ)
    (h : fs.is_dir directory = false) :
    (q.add_from_directory fs directory pattern recursive output_dir priority now).1
        = q ∧
    (q.add_from_directory fs directory pattern recursive output_dir priority now).2
        = Except.error ("Not a directory: " ++ directory) := by
  constructor <;> simp [TaskQueue.add_from_directory, h]

/-- C8 witness: the all-failing file system on the empty queue. -/
theorem c8_not_a_directory_witness :
    (TaskQueue.empty.add_from_directory fsNone "nodir" "*.pdf" false none 0 0).1
        = TaskQueue.empty ∧
    (TaskQueue.empty.add_from_directory fsNone "nodir" "*.pdf" false none 0 0).2
        = Except.error ("Not a directory: " ++ "nodir") :=
  c8_not_a_directory fsNone TaskQueue.empty "nodir" "*.pdf" false none 0 0 rfl

/-- C9 counterexample: on a task already in the terminal `completed` state
(completion stamp 5), `mark_failed` is silently accepted: it overwrites the
status, the error message, and the completion timestamp instead of failing. -/
theorem c9_counterexample :
    (completedTaskFx.mark_failed "boom" 9).status = TaskStatus.failed ∧
    (completedTaskFx.mark_failed "boom" 9).error_message = some "boom" ∧
    (completedTaskFx.mark_failed "boom" 9).completed_at = some 9 ∧
    (completedTaskFx.mark_failed "boom" 9).status ≠ completedTaskFx.status := by
  refine ⟨rfl, rfl, rfl, by simp [completedTaskFx, ConversionTask.mark_failed]⟩

/-- C9 (amended): the terminal-mark methods are not guarded at all — on
every task, whatever its current status (terminal included), `mark_completed`,
`mark_failed` and `mark_skipped` unconditionally overwrite the status, the
error message, and the completion timestamp. -/
theorem c9_marks_unguarded (t : ConversionTask) (err reason : String) (now : ℕ) :
    (t.mark_completed now).status = TaskStatus.completed ∧
    (t.mark_completed now).completed_at = some now ∧
    (t.mark_failed err now).status = TaskStatus.failed ∧
    (t.mark_failed err now).error_message = some err ∧
    (t.mark_failed err now).completed_at = some now ∧
    (t.mark_skipped reason now).status = TaskStatus.skipped ∧
    (t.mark_skipped reason now).error_message = some reason ∧
    (t.mark_skipped reason now).completed_at = some now :=
  ⟨rfl, rfl, rfl, rfl, rfl, rfl, rfl, rfl⟩

/-! ## Task-queue lemmas (towards C2) -/

/-- The pending-sort key order is transitive. -/
theorem pendingKeyLE_trans (a b c : ConversionTask) :
    pendingKeyLE a b = true → pendingKeyLE b c = true → pendingKeyLE a c = true := by
  simp only [pendingKeyLE, Bool.or_eq_true, Bool.and_eq_true, decide_eq_true_eq]
  omega

/-- The pending-sort key order is total. -/
theorem pendingKeyLE_total (a b : ConversionTask) :
    (pendingKeyLE a b || pendingKeyLE b a) = true := by
  simp only [pendingKeyLE, Bool.or_eq_true, Bool.and_eq_true, decide_eq_true_eq]
  omega

/-- Adding tasks grows the collection by one task per priority. -/
theorem addAll_length (prios : List ℤ) :
    ∀ (q : TaskQueue) (now : ℕ),
      (addAll q prios now).tasks.length = q.tasks.length + prios.length := by
  induction prios with
  | nil => intro q now; simp [addAll]
  | cons p ps ih =>
      intro q now
      rw [addAll, ih]
      simp [TaskQueue.add]
      omega

/-- Every task present after `addAll` was already present or is pending. -/
theorem addAll_status (prios : List ℤ) :
    ∀ (q : TaskQueue) (now : ℕ) (t : ConversionTask),
      t ∈ (addAll q prios now).tasks → t ∈ q.tasks ∨ t.status = TaskStatus.pending := by
  induction prios with
  | nil => intro q now t h; exact Or.inl h
  | cons p ps ih =>
      intro q now t h
      rcases ih _ _ t h with hmem | hp
      · simp only [TaskQueue.add, List.mem_append, List.mem_singleton] at hmem
        rcases hmem with h1 | h2
        · exact Or.inl h1
        · right; rw [h2]
      · exact Or.inr hp

/-- `markTasksAt` preserves the length of the collection. -/
theorem markTasksAt_length : ∀ (ts : List ConversionTask) (i later : ℕ),
    (markTasksAt ts i later).length = ts.length
  | [], _, _ => rfl
  | _ :: _, 0, _ => rfl
  | t :: ts, i + 1, later => by
      simp [markTasksAt, markTasksAt_length ts i later]

/-- `markTasksAt` leaves every other position untouched. -/
theorem markTasksAt_getElem_ne : ∀ (ts : List ConversionTask) (i later j : ℕ),
    j ≠ i → (markTasksAt ts i later)[j]? = ts[j]?
  | [], _, _, _, _ => rfl
  | t :: ts, 0, later, j, hj => by
      cases j with
      | zero => exact absurd rfl hj
      | succ n => simp [markTasksAt]
  | t :: ts, i + 1, later, 0, _ => by simp [markTasksAt]
  | t :: ts, i + 1, later, j + 1, hj => by
      have := markTasksAt_getElem_ne ts i later j (by omega)
      simp [markTasksAt, this]

/-- `markTasksAt` marks exactly the selected position completed. -/
theorem markTasksAt_getElem_self : ∀ (ts : List ConversionTask) (i later : ℕ),
    (markTasksAt ts i later)[i]? =
      (ts[i]?).map (fun t => t.mark_completed later)
  | [], _, _ => rfl
  | t :: ts, 0, later => by simp [markTasksAt]
  | t :: ts, i + 1, later => by
      simp [markTasksAt, markTasksAt_getElem_self ts i later]

/-- Marking one pending position moves exactly one task from the pending
count to the completed count. -/
theorem markTasksAt_count : ∀ (ts : List ConversionTask) (i later : ℕ),
    i < ts.length →
    (∀ t, ts[i]? = some t → t.status = TaskStatus.pending) →
    ((markTasksAt ts i later).filter
        fun t => decide (t.status = TaskStatus.completed)).length
      = ((ts.filter fun t => decide (t.status = TaskStatus.completed)).length) + 1 ∧
    ((markTasksAt ts i later).filter
        fun t => decide (t.status = TaskStatus.pending)).length + 1
      = (ts.filter fun t => decide (t.status = TaskStatus.pending)).length
  | [], i, later, hi, _ => by simp at hi
  | t :: ts, 0, later, _, hp => by
      have ht : t.status = TaskStatus.pending := hp t (by simp)
      simp [markTasksAt, List.filter_cons, ht, ConversionTask.mark_completed]
  | t :: ts, i + 1, later, hi, hp => by
      have hi2 : i < ts.length := by simpa using hi
      have hp2 : ∀ u, ts[i]? = some u → u.status = TaskStatus.pending := by
        intro u hu
        exact hp u (by simpa using hu)
      have IH := markTasksAt_count ts i later hi2 hp2
      simp only [markTasksAt, List.filter_cons]
      by_cases hc : t.status = TaskStatus.completed <;>
        by_cases hq : t.status = TaskStatus.pending <;>
          simp [hc, hq] <;> omega

/-- Folding `markTasksAt` over distinct in-range pending indices converts
exactly that many pending tasks to completed, preserving the length. -/
theorem markMany_count : ∀ (idxs : List ℕ) (later : ℕ) (ts : List ConversionTask),
    idxs.Nodup →
    (∀ i ∈ idxs, i < ts.length ∧
      ∀ t, ts[i]? = some t → t.status = TaskStatus.pending) →
    (idxs.foldl (fun acc i => markTasksAt acc i later) ts).length = ts.length ∧
    ((idxs.foldl (fun acc i => markTasksAt acc i later) ts).filter
        fun t => decide (t.status = TaskStatus.completed)).length
      = ((ts.filter fun t => decide (t.status = TaskStatus.completed)).length)
          + idxs.length ∧
    ((idxs.foldl (fun acc i => markTasksAt acc i later) ts).filter
        fun t => decide (t.status = TaskStatus.pending)).length + idxs.length
      = (ts.filter fun t => decide (t.status = TaskStatus.pending)).length
  | [], later, ts, _, _ => by simp
  | i :: idxs, later, ts, hnodup, hok => by
      have hi := hok i (by simp)
      have hstep := markTasksAt_count ts i later hi.1 hi.2
      have hne : i ∉ idxs := (List.nodup_cons.1 hnodup).1
      have htail : ∀ j ∈ idxs, j < (markTasksAt ts i later).length ∧
          ∀ t, (markTasksAt ts i later)[j]? = some t →
            t.status = TaskStatus.pending := by
        intro j hj
        have hjne : j ≠ i := fun hji => hne (hji ▸ hj)
        have hget := markTasksAt_getElem_ne ts i later j hjne
        refine ⟨?_, ?_⟩
        · rw [markTasksAt_length]; exact (hok j (by simp [hj])).1
        · intro t ht
          exact (hok j (by simp [hj])).2 t (hget ▸ ht)
      have IH := markMany_count idxs later (markTasksAt ts i later)
        (List.nodup_cons.1 hnodup).2 htail
      simp only [List.foldl_cons]
      refine ⟨?_, ?_, ?_⟩
      · rw [IH.1, markTasksAt_length]
      · rw [IH.2.1, hstep.1]; simp; omega
      · rw [← hstep.2, ← IH.2.2]; simp; omega

/-- The task list of `markCompletedMany` is the fold of `markTasksAt`. -/
theorem markCompletedMany_tasks (idxs : List ℕ) (later : ℕ) :
    ∀ (q : TaskQueue), (markCompletedMany q idxs later).tasks
      = idxs.foldl (fun acc i => markTasksAt acc i later) q.tasks := by
  induction idxs with
  | nil => intro q; rfl
  | cons i idxs ih =>
      intro q
      rw [markCompletedMany, List.foldl_cons, List.foldl_cons]
      exact ih (q.markCompletedAt i later)

/-- C2: for every queue state, `get_pending` returns pending tasks only, a
permutation of the pending subset of the collection, sorted by priority
descending then creation time ascending; and in the add-N-then-mark-K
scenario (distinct in-range indices `idxs`, |idxs| = K, starting from the
empty queue), `get_pending` afterwards has exactly N − K tasks,
`completed_count` is K, and all N tasks remain in the collection. -/
theorem c2_get_pending_invariant (q : TaskQueue) (prios : List ℤ)
    (idxs : List ℕ) (now later : ℕ)
    (hnodup : idxs.Nodup) (hlt : ∀ i ∈ idxs, i < prios.length) :
    (∀ t ∈ q.get_pending, t.status = TaskStatus.pending) ∧
    List.Perm q.get_pending
      (q.tasks.filter fun t => decide (t.status = TaskStatus.pending)) ∧
    List.Pairwise (fun a b => pendingKeyLE a b = true) q.get_pending ∧
    (markCompletedMany (addAll TaskQueue.empty prios now) idxs later).get_pending.length
      = prios.length - idxs.length ∧
    (markCompletedMany (addAll TaskQueue.empty prios now) idxs later).completed_count
      = idxs.length ∧
    (markCompletedMany (addAll TaskQueue.empty prios now) idxs later).tasks.length
      = prios.length := by
  have hq0len : (addAll TaskQueue.empty prios now).tasks.length = prios.length := by
    rw [addAll_length]; simp [TaskQueue.empty]
  have hq0all : ∀ t ∈ (addAll TaskQueue.empty prios now).tasks,
      t.status = TaskStatus.pending := by
    intro t ht
    rcases addAll_status prios TaskQueue.empty now t ht with h0 | hp
    · simp [TaskQueue.empty] at h0
    · exact hp
  have hok : ∀ i ∈ idxs, i < (addAll TaskQueue.empty prios now).tasks.length ∧
      ∀ t, (addAll TaskQueue.empty prios now).tasks[i]? = some t →
        t.status = TaskStatus.pending := by
    intro i hi
    exact ⟨hq0len ▸ hlt i hi, fun t ht => hq0all t (List.getElem?_mem ht)⟩
  have hcount := markMany_count idxs later (addAll TaskQueue.empty prios now).tasks
    hnodup hok
  have htasks := markCompletedMany_tasks idxs later (addAll TaskQueue.empty prios now)
  have hfp : ((addAll TaskQueue.empty prios now).tasks.filter
      fun t => decide (t.status = TaskStatus.pending)).length = prios.length := by
    rw [List.filter_eq_self.2 (fun a ha => by simp [hq0all a ha]), hq0len]
  have hfc : ((addAll TaskQueue.empty prios now).tasks.filter
      fun t => decide (t.status = TaskStatus.completed)).length = 0 := by
    rw [List.length_eq_zero, List.filter_eq_nil_iff]
    intro a ha
    simp [hq0all a ha]
  refine ⟨?_, ?_, ?_, ?_, ?_, ?_⟩
  · intro t ht
    have := List.mem_filter.1 (List.mem_mergeSort.1 ht)
    exact of_decide_eq_true this.2
  · exact List.mergeSort_perm _ _
  · exact List.sorted_mergeSort pendingKeyLE_trans pendingKeyLE_total _
  · rw [TaskQueue.get_pending, List.length_mergeSort, htasks]
    omega
  · rw [TaskQueue.completed_count, TaskQueue.get_completed,
      TaskQueue.get_by_status, htasks]
    omega
  · rw [htasks]
    omega

/-- C2 witness: three tasks of priorities 1, 2, 3 added at times 0, 1, 2;
the first and third are then marked completed. -/
theorem c2_get_pending_invariant_witness :
    (∀ t ∈ qTwo.get_pending, t.status = TaskStatus.pending) ∧
    List.Perm qTwo.get_pending
      (qTwo.tasks.filter fun t => decide (t.status = TaskStatus.pending)) ∧
    List.Pairwise (fun a b => pendingKeyLE a b = true) qTwo.get_pending ∧
    (markCompletedMany (addAll TaskQueue.empty [1, 2, 3] 0) [0, 2] 10).get_pending.length
      = ([1, 2, 3] : List ℤ).length - ([0, 2] : List ℕ).length ∧
    (markCompletedMany (addAll TaskQueue.empty [1, 2, 3] 0) [0, 2] 10).completed_count
      = ([0, 2] : List ℕ).length ∧
    (markCompletedMany (addAll TaskQueue.empty [1, 2, 3] 0) [0, 2] 10).tasks.length
      = ([1, 2, 3] : List ℤ).length :=
  c2_get_pending_invariant qTwo [1, 2, 3] [0, 2] 0 10 (by decide) (by decide)

/-! ## Batch-processor lemmas (towards C1 and C10) -/

/-- The completion loop yields exactly one result and one updated task per
input task, each obtained by `processTask` on the task at the same
position. -/
theorem runPending_spec (convert : Converter) (start finish total : ℕ)
    (cb : Bool) :
    ∀ (ts : List ConversionTask) (completed : ℕ),
      (runPending convert start finish total cb ts completed).1.length
        = ts.length ∧
      (runPending convert start finish total cb ts completed).2.1.length
        = ts.length ∧
      ∀ i : ℕ,
        (runPending convert start finish total cb ts completed).1[i]? =
          (ts[i]?).map (fun t => (processTask convert start finish t).2) ∧
        (runPending convert start finish total cb ts completed).2.1[i]? =
          (ts[i]?).map (fun t => (processTask convert start finish t).1) := by
  intro ts
  induction ts with
  | nil =>
      intro completed
      refine ⟨rfl, rfl, fun i => ⟨?_, ?_⟩⟩ <;> simp [runPending]
  | cons t ts ih =>
      intro completed
      have IH := ih (completed + 1)
      refine ⟨?_, ?_, fun i => ?_⟩
      · simp only [runPending]
        simpa using IH.1
      · simp only [runPending]
        simpa using IH.2.1
      · cases i with
        | zero => simp [runPending]
        | succ n =>
            constructor
            · simp only [runPending]
              simpa using (IH.2.2 n).1
            · simp only [runPending]
              simpa using (IH.2.2 n).2

/-- `mark_started` does not change the source path handed to the
collaborator. -/
theorem mark_started_source_path (t : ConversionTask) (now : ℕ) :
    (t.mark_started now).source_path = t.source_path := rfl

/-- `mark_started` does not change the output directory handed to the
collaborator. -/
theorem mark_started_output_dir (t : ConversionTask) (now : ℕ) :
    (t.mark_started now).output_dir = t.output_dir := rfl

/-- C1: for every queue and collaborator, `process` yields exactly one
result and one updated task per pending task; at each position, if the
collaborator raised, the result has `success = false` and carries the
exception message and the task is marked failed with that message, while at
each position where the collaborator returned, the returned result is passed
through unchanged — no exception aborts the batch or loses another task's
result. -/
theorem c1_batch_isolation (convert : Converter) (start finish : ℕ)
    (proc : BatchProcessor) (q : TaskQueue) (cb : Bool) :
    (process convert start finish proc q cb).returned.length
      = q.get_pending.length ∧
    (process convert start finish proc q cb).tasks.length
      = q.get_pending.length ∧
    ∀ i (h : i < q.get_pending.length),
      (∀ msg,
        convert (q.get_pending.get ⟨i, h⟩).source_path
            (q.get_pending.get ⟨i, h⟩).output_dir = Except.error msg →
        ∃ res task2,
          (process convert start finish proc q cb).returned[i]? = some res ∧
          res.success = false ∧ res.error_message = some msg ∧
          (process convert start finish proc q cb).tasks[i]? = some task2 ∧
          task2.status = TaskStatus.failed ∧
          task2.error_message = some msg) ∧
      (∀ r,
        convert (q.get_pending.get ⟨i, h⟩).source_path
            (q.get_pending.get ⟨i, h⟩).output_dir = Except.ok r →
        (process convert start finish proc q cb).returned[i]? = some r) := by
  by_cases h0 : q.pending_count = 0
  · have hnil : q.get_pending = [] :=
      List.length_eq_zero.1 h0
    have hout : process convert start finish proc q cb =
        { processor := proc, returned := [], tasks := [],
          conv_calls := [], progress_calls := [] } := by
      simp [process, h0]
    rw [hout, hnil]
    refine ⟨rfl, rfl, fun i h => ?_⟩
    simp at h
  · have hret : (process convert start finish proc q cb).returned =
        (runPending convert start finish q.pending_count cb q.get_pending 0).1 := by
      simp [process, h0]
    have htk : (process convert start finish proc q cb).tasks =
        (runPending convert start finish q.pending_count cb q.get_pending 0).2.1 := by
      simp [process, h0]
    have hrun := runPending_spec convert start finish q.pending_count cb
      q.get_pending 0
    rw [hret, htk]
    refine ⟨hrun.1, hrun.2.1, fun i h => ⟨fun msg hconv => ?_, fun r hconv => ?_⟩⟩
    · have hget : q.get_pending[i]? = some (q.get_pending.get ⟨i, h⟩) := by
        simp
      have hpt : processTask convert start finish (q.get_pending.get ⟨i, h⟩) =
          (((q.get_pending.get ⟨i, h⟩).mark_started start).mark_failed msg finish,
            failureResult ((q.get_pending.get ⟨i, h⟩).mark_started start) msg) := by
        simp only [processTask, mark_started_source_path,
          mark_started_output_dir, hconv]
      refine ⟨failureResult ((q.get_pending.get ⟨i, h⟩).mark_started start) msg,
        ((q.get_pending.get ⟨i, h⟩).mark_started start).mark_failed msg finish,
        ?_, rfl, rfl, ?_, rfl, rfl⟩
      · rw [(hrun.2.2 i).1, hget, Option.map_some', hpt]
      · rw [(hrun.2.2 i).2, hget, Option.map_some', hpt]
    · have hget : q.get_pending[i]? = some (q.get_pending.get ⟨i, h⟩) := by
        simp
      have hpt : (processTask convert start finish
          (q.get_pending.get ⟨i, h⟩)).2 = r := by
        simp only [processTask, mark_started_source_path,
          mark_started_output_dir, hconv]
        cases hr : r.success <;> simp [hr]
      rw [(hrun.2.2 i).1, hget, Option.map_some', hpt]

/-- C1 witness: the stub collaborator raises "boom" for the single pending
task `bad.pdf`; the batch yields its one failure result and marks the task
failed. -/
theorem c1_batch_isolation_witness :
    ∃ res task2,
      (process convStub 1 2 procPrev qOne true).returned[0]? = some res ∧
      res.success = false ∧ res.error_message = some "boom" ∧
      (process convStub 1 2 procPrev qOne true).tasks[0]? = some task2 ∧
      task2.status = TaskStatus.failed ∧
      task2.error_message = some "boom" := by
  have hpend : qOne.get_pending =
      [{ source_path := "bad.pdf", output_dir := none, priority := 0,
         created_at := 0 }] := by
    simp [qOne, TaskQueue.get_pending, TaskQueue.add, TaskQueue.empty,
      List.filter]
  have h : 0 < qOne.get_pending.length := by rw [hpend]; simp
  refine ((c1_batch_isolation convStub 1 2 procPrev qOne true).2.2 0 h).1
    "boom" ?_
  have hsrc : (qOne.get_pending.get ⟨0, h⟩).source_path = "bad.pdf" := by
    simp [hpend]
  have hdir : (qOne.get_pending.get ⟨0, h⟩).output_dir = none := by
    simp [hpend]
  rw [hsrc, hdir]
  simp [convStub]

/-- C10: `process` on a queue with no pending task returns the empty list at
once — no collaborator call, no progress callback — and leaves the stored
results untouched, so `get_results` and `get_summary` still report the
previous batch. -/
theorem c10_no_pending_frame (convert : Converter) (start finish : ℕ)
    (proc : BatchProcessor) (q : TaskQueue) (cb : Bool)
    (h : q.pending_count = 0) :
    process convert start finish proc q cb =
      { processor := proc, returned := [], tasks := [],
        conv_calls := [], progress_calls := [] } ∧
    (process convert start finish proc q cb).processor.get_results
      = proc.get_results ∧
    (process convert start finish proc q cb).processor.get_summary
      = proc.get_summary := by
  have hout : process convert start finish proc q cb =
      { processor := proc, returned := [], tasks := [],
        conv_calls := [], progress_calls := [] } := by
    simp [process, h]
  exact ⟨hout, by rw [hout], by rw [hout]⟩

/-- C10 witness: a processor holding one previous result, a nonempty queue
whose only task is already completed. -/
theorem c10_no_pending_frame_witness :
    process convStub 1 2 procPrev qDone true =
      { processor := procPrev, returned := [], tasks := [],
        conv_calls := [], progress_calls := [] } ∧
    (process convStub 1 2 procPrev qDone true).processor.get_results
      = procPrev.get_results ∧
    (process convStub 1 2 procPrev qDone true).processor.get_summary
      = procPrev.get_summary :=
  c10_no_pending_frame convStub 1 2 procPrev qDone true
    (by simp [qDone, TaskQueue.pending_count, TaskQueue.get_pending,
      TaskQueue.markCompletedAt, markTasksAt, TaskQueue.add, TaskQueue.empty,
      ConversionTask.mark_completed, List.filter])

end Pdf2Md
